import Mathlib

/-!
Shallow embedding of the binder transaction subsystem of
`libs/binder/Binder.cpp` (classes `IBinder`, `BBinder`, `BBinder::Extras`,
`BBinder::RpcServerLink`, `BpRefBase`), with theorems checking the
specification's claims about it.

External collaborators (`Parcel` serialization, `IPCThreadState`,
`ProcessState`, `RpcServer`, the `RefBase` runtime) are modelled as oracles:
a `Parcel` carries the results its read accessors would produce, and an `Env`
carries the calling uid, thread-pool size and collaborator statuses.
Compile-time build flags (`kEnableRpcDevServers`, `kEnableKernelIpc`,
`kEnableRecording`) are modelled as an injected configuration record.
-/

namespace Binder

/-- Status codes used by `Binder.cpp` (`OK`/`NO_ERROR` are the same value 0
in the source). -/
inductive status_t where
  | OK
  | UNKNOWN_TRANSACTION
  | PERMISSION_DENIED
  | INVALID_OPERATION
  | BAD_VALUE
  | UNEXPECTED_NULL
  | DEAD_OBJECT
  | NO_MEMORY
  | NOT_ENOUGH_DATA
  | BAD_TYPE
deriving DecidableEq, Repr

/-- `NO_ERROR` is an alias of `OK` in the source. -/
def NO_ERROR : status_t := .OK

/-- Framework transaction codes from `IBinder.h`, values per
`B_PACK_CHARS`. -/
def PING_TRANSACTION : Nat := 0x5f504e47
def DUMP_TRANSACTION : Nat := 0x5f444d50
def SHELL_COMMAND_TRANSACTION : Nat := 0x5f434d44
def INTERFACE_TRANSACTION : Nat := 0x5f4e5446
def SYSPROPS_TRANSACTION : Nat := 0x5f535052
def EXTENSION_TRANSACTION : Nat := 0x5f455854
def DEBUG_PID_TRANSACTION : Nat := 0x5f504944
def SET_RPC_CLIENT_TRANSACTION : Nat := 0x5f525043
def START_RECORDING_TRANSACTION : Nat := 0x5f535452
def STOP_RECORDING_TRANSACTION : Nat := 0x5f454e44
def FLAG_CLEAR_BUF : Nat := 0x20
def kUidRoot : Nat := 0

/-- Linux scheduling policy constants (`linux/sched.h`). -/
def SCHED_NORMAL : Int := 0
def SCHED_FIFO : Int := 1
def SCHED_RR : Int := 2

/-- Compile-time build flags of `Binder.cpp` / `BuildFlags.h`, modelled as an
injected configuration. -/
structure BuildFlags where
  kEnableRpcDevServers : Bool
  kEnableKernelIpc : Bool
  kEnableRecording : Bool
deriving DecidableEq, Repr

/-- Model of an `sp<IBinder>` capability held only to be observed
(keep-alive binder, extension binder): its identity plus the status its
`linkToDeath` collaborator call would return. -/
structure RemoteCap where
  handle : Nat := 0
  linkToDeathStatus : status_t := .OK
deriving DecidableEq, Repr

/-- `unique_fd::ok()` is `get() >= 0`; a `unique_fd` is modelled as the raw
descriptor value, `-1` when invalid. -/
def unique_fd.ok (fd : Int) : Bool := 0 ≤ fd

/-- Tokens a handler writes into a reply `Parcel`; the byte layout is owned
by the out-of-scope `Parcel` collaborator, so writes are recorded
abstractly. -/
inductive WriteTok where
  | wInt32 (v : Int)
  | wStrongBinder (v : Option RemoteCap)
  | wString16 (s : String)
deriving DecidableEq, Repr

instance {ε α : Type} [DecidableEq ε] [DecidableEq α] : DecidableEq (Except ε α) :=
  fun a b =>
    match a, b with
    | .error e, .error f =>
        if h : e = f then .isTrue (by rw [h]) else .isFalse (by intro hh; cases hh; exact h rfl)
    | .ok x, .ok y =>
        if h : x = y then .isTrue (by rw [h]) else .isFalse (by intro hh; cases hh; exact h rfl)
    | .error _, .ok _ => .isFalse (by intro hh; cases hh)
    | .ok _, .error _ => .isFalse (by intro hh; cases hh)

/-- Model of a `Parcel`.  Read accessors are oracles for the out-of-scope
serialization collaborator: each field is the result the corresponding read
would produce at its call site. -/
structure Parcel where
  dataPosition : Nat := 0
  dataSize : Nat := 0
  sensitive : Bool := false
  written : List WriteTok := []
  readFdResult : Except status_t Int := .error .NOT_ENOUGH_DATA
  readBoolResult : Except status_t Bool := .error .NOT_ENOUGH_DATA
  readBinderResult : Except status_t (Option RemoteCap) := .error .NOT_ENOUGH_DATA
  readInt32Result : Except status_t Int := .error .NOT_ENOUGH_DATA
  readString16List : List String := []
deriving DecidableEq, Repr

def Parcel.writeInt32 (p : Parcel) (v : Int) : Parcel :=
  { p with written := p.written ++ [.wInt32 v] }

def Parcel.writeStrongBinder (p : Parcel) (v : Option RemoteCap) : Parcel :=
  { p with written := p.written ++ [.wStrongBinder v] }

def Parcel.writeString16 (p : Parcel) (s : String) : Parcel :=
  { p with written := p.written ++ [.wString16 s] }

def Parcel.markSensitive (p : Parcel) : Parcel := { p with sensitive := true }

def Parcel.setDataPosition (p : Parcel) (pos : Nat) : Parcel :=
  { p with dataPosition := pos }

/-- A `BBinder::RpcServerLink` as stored in the Extras link set: the ad-hoc
`RpcServer` it owns (by allocation id) and the keep-alive capability. -/
structure RpcServerLink where
  serverId : Nat
  keepAlive : RemoteCap
deriving DecidableEq, Repr

/-- `BBinder::Extras` — the lazily allocated side table.  Field defaults
mirror the in-class initializers.  (`mObjects`, the `ObjectManager`, lives in
`BpBinder.cpp`, outside the analyzed sources, and no claim touches it.) -/
structure Extras where
  mExtension : Option RemoteCap := none
  mPolicy : Int := SCHED_NORMAL
  mPriority : Int := 0
  mRequestingSid : Bool := false
  mInheritRt : Bool := false
  mRpcServerLinks : List RpcServerLink := []
  mRecordingFd : Option Int := none
deriving DecidableEq, Repr

/-- `BBinder` state; defaults mirror the constructor
`BBinder() : mExtras(nullptr), mStability(0), mParceled(false),
mRecordingOn(false)`. -/
structure BBinder where
  mExtras : Option Extras := none
  mStability : Int := 0
  mParceled : Bool := false
  mRecordingOn : Bool := false
deriving DecidableEq, Repr

/-- A freshly constructed `BBinder`. -/
def freshBBinder : BBinder := {}

/-- Reasons for the `LOG_ALWAYS_FATAL` aborts reachable from the modelled
code. -/
inductive FatalReason where
  | parceledMutation
  | invalidSchedulerArgs
  | nullReply
deriving DecidableEq, Repr

/-- Result of an operation that can hit a `LOG_ALWAYS_FATAL` abort. -/
inductive Outcome (α : Type) where
  | ok (a : α)
  | fatal (r : FatalReason)
deriving DecidableEq, Repr

/-- Environment: calling-context and collaborator oracles
(`IPCThreadState::getCallingUid`, `ProcessState` thread-pool size, the
status `RpcServer::setupExternalServer` would return, the result of
`binder::os::report_sysprop_change`, and `getpid`). -/
structure Env where
  flags : BuildFlags
  callingUid : Nat
  threadPoolMaxCount : Nat
  setupExternalServerStatus : status_t := .OK
  reportSyspropChangeOk : Bool := true
  pid : Int := 1
deriving DecidableEq, Repr

/-- `BBinder::getOrCreateExtras` — returns the Extras, allocating a default
one first if none is present (allocation is modelled as always succeeding;
the CAS race resolution is not observable in a sequential model). -/
def BBinder.getOrCreateExtras (b : BBinder) : Extras × BBinder :=
  match b.mExtras with
  | some e => (e, b)
  | none => ({}, { b with mExtras := some {} })

/-- `BBinder::isBinderAlive` — always `true`. -/
def BBinder.isBinderAlive (_ : BBinder) : Bool := true

/-- `BBinder::pingBinder` — returns `NO_ERROR`. -/
def BBinder.pingBinder (_ : BBinder) : status_t := NO_ERROR

/-- `BBinder::getInterfaceDescriptor` — default static `"BBinder"`. -/
def BBinder.getInterfaceDescriptor (_ : BBinder) : String := "BBinder"

/-- `BBinder::localBinder` — returns `this`. -/
def BBinder.localBinder (b : BBinder) : Option BBinder := some b

/-- `BBinder::getExtension`. -/
def BBinder.getExtension (b : BBinder) : Option RemoteCap :=
  match b.mExtras with
  | none => none
  | some e => e.mExtension

/-- `BBinder::isRequestingSid`. -/
def BBinder.isRequestingSid (b : BBinder) : Bool :=
  match b.mExtras with
  | none => false
  | some e => e.mRequestingSid

/-- `BBinder::isInheritRt`. -/
def BBinder.isInheritRt (b : BBinder) : Bool :=
  match b.mExtras with
  | none => false
  | some e => e.mInheritRt

/-- `BBinder::getMinSchedulerPolicy`. -/
def BBinder.getMinSchedulerPolicy (b : BBinder) : Int :=
  match b.mExtras with
  | none => SCHED_NORMAL
  | some e => e.mPolicy

/-- `BBinder::getMinSchedulerPriority`. -/
def BBinder.getMinSchedulerPriority (b : BBinder) : Int :=
  match b.mExtras with
  | none => 0
  | some e => e.mPriority

/-- `BBinder::getDebugPid` — answers from the current process. -/
def BBinder.getDebugPid (env : Env) (_ : BBinder) : Int := env.pid

/-- `BBinder::wasParceled`. -/
def BBinder.wasParceled (b : BBinder) : Bool := b.mParceled

/-- `BBinder::setParceled`. -/
def BBinder.setParceled (b : BBinder) : BBinder := { b with mParceled := true }

/-- `BBinder::dump` — default implementation ignores its arguments and
returns `NO_ERROR`. -/
def BBinder.dump (_ : BBinder) (_fd : Int) (_args : List String) : status_t :=
  NO_ERROR

/-- `BBinder::linkToDeath` — local objects cannot die. -/
def BBinder.linkToDeath (_ : BBinder) : status_t := .INVALID_OPERATION

/-- `BBinder::unlinkToDeath`. -/
def BBinder.unlinkToDeath (_ : BBinder) : status_t := .INVALID_OPERATION

/-- `BBinder::setRequestingSid` — fatal if already parceled; otherwise skips
allocation when setting the default `false` on a fresh object. -/
def BBinder.setRequestingSid (b : BBinder) (requestingSid : Bool) : Outcome BBinder :=
  if b.mParceled then .fatal .parceledMutation
  else
    match b.mExtras with
    | none =>
        if !requestingSid then .ok b
        else
          let (e, b1) := b.getOrCreateExtras
          .ok { b1 with mExtras := some { e with mRequestingSid := requestingSid } }
    | some e => .ok { b with mExtras := some { e with mRequestingSid := requestingSid } }

/-- `BBinder::setInheritRt` — fatal if already parceled; otherwise skips
allocation when setting the default `false` on a fresh object. -/
def BBinder.setInheritRt (b : BBinder) (inheritRt : Bool) : Outcome BBinder :=
  if b.mParceled then .fatal .parceledMutation
  else
    match b.mExtras with
    | none =>
        if !inheritRt then .ok b
        else
          let (e, b1) := b.getOrCreateExtras
          .ok { b1 with mExtras := some { e with mInheritRt := inheritRt } }
    | some e => .ok { b with mExtras := some { e with mInheritRt := inheritRt } }

/-- Tail of `BBinder::setMinSchedulerPolicy` after the parceled and
priority-range checks: allocation-avoiding store of policy/priority. -/
def BBinder.setMinSchedulerPolicyStore (b : BBinder) (policy priority : Int) :
    Outcome BBinder :=
  match b.mExtras with
  | none =>
      if policy = SCHED_NORMAL ∧ priority = 0 then .ok b
      else
        let (e, b1) := b.getOrCreateExtras
        .ok { b1 with mExtras := some { e with mPolicy := policy, mPriority := priority } }
  | some e => .ok { b with mExtras := some { e with mPolicy := policy, mPriority := priority } }

/-- `BBinder::setMinSchedulerPolicy` — fatal if parceled, fatal on an
out-of-range priority or unrecognized policy, else stores the pair. -/
def BBinder.setMinSchedulerPolicy (b : BBinder) (policy priority : Int) :
    Outcome BBinder :=
  if b.mParceled then .fatal .parceledMutation
  else if policy = SCHED_NORMAL then
    if priority < -20 ∨ priority > 19 then .fatal .invalidSchedulerArgs
    else b.setMinSchedulerPolicyStore policy priority
  else if policy = SCHED_RR ∨ policy = SCHED_FIFO then
    if priority < 1 ∨ priority > 99 then .fatal .invalidSchedulerArgs
    else b.setMinSchedulerPolicyStore policy priority
  else .fatal .invalidSchedulerArgs

/-- `BBinder::setExtension` — fatal if parceled; always allocates Extras. -/
def BBinder.setExtension (b : BBinder) (extension : Option RemoteCap) :
    Outcome BBinder :=
  if b.mParceled then .fatal .parceledMutation
  else
    let (e, b1) := b.getOrCreateExtras
    .ok { b1 with mExtras := some { e with mExtension := extension } }

/-- `BBinder::startRecordingTransactions`: feature-flag checks, root-uid
check, lazy Extras allocation, already-recording check, then reads the
target descriptor from `data` and flips recording on. -/
def BBinder.startRecordingTransactions (env : Env) (b : BBinder) (data : Parcel) :
    status_t × BBinder :=
  if !env.flags.kEnableRecording then (.INVALID_OPERATION, b)
  else if !env.flags.kEnableKernelIpc then (.INVALID_OPERATION, b)
  else if env.callingUid ≠ kUidRoot then (.PERMISSION_DENIED, b)
  else
    let (e, b1) := b.getOrCreateExtras
    if b1.mRecordingOn then (.INVALID_OPERATION, b1)
    else
      match data.readFdResult with
      | .error s => (s, b1)
      | .ok fd =>
          (NO_ERROR,
           { b1 with mExtras := some { e with mRecordingFd := some fd },
                     mRecordingOn := true })

/-- `BBinder::stopRecordingTransactions`: same gate checks, then resets the
recording descriptor and flips recording off, or `INVALID_OPERATION` when no
recording is in progress. -/
def BBinder.stopRecordingTransactions (env : Env) (b : BBinder) :
    status_t × BBinder :=
  if !env.flags.kEnableRecording then (.INVALID_OPERATION, b)
  else if !env.flags.kEnableKernelIpc then (.INVALID_OPERATION, b)
  else if env.callingUid ≠ kUidRoot then (.PERMISSION_DENIED, b)
  else
    let (e, b1) := b.getOrCreateExtras
    if b1.mRecordingOn then
      (NO_ERROR,
       { b1 with mExtras := some { e with mRecordingFd := none },
                 mRecordingOn := false })
    else (.INVALID_OPERATION, b1)

/-- Result of the RPC-debug bridge setup, additionally tracking how many
`RpcServer::make` allocations were performed. -/
structure RpcSetupResult where
  st : status_t
  binder : BBinder
  serversMade : Nat
deriving DecidableEq, Repr

/-- `BBinder::setRpcClientDebug(unique_fd, sp<IBinder>)`: flag checks, then
`BAD_VALUE` for an invalid socket, `UNEXPECTED_NULL` for a null keep-alive,
`INVALID_OPERATION` for a thread pool of at most one thread; then allocates
the `RpcServer` and `RpcServerLink`, registers the death link, sets the root
object, hands over the socket, starts the server, and only then inserts the
link into the Extras link set. -/
def BBinder.setRpcClientDebugFd (env : Env) (b : BBinder) (socketFd : Int)
    (keepAliveBinder : Option RemoteCap) : RpcSetupResult :=
  if !env.flags.kEnableRpcDevServers then ⟨.INVALID_OPERATION, b, 0⟩
  else if !env.flags.kEnableKernelIpc then ⟨.INVALID_OPERATION, b, 0⟩
  else if ! unique_fd.ok socketFd then ⟨.BAD_VALUE, b, 0⟩
  else
    match keepAliveBinder with
    | none => ⟨.UNEXPECTED_NULL, b, 0⟩
    | some keepAlive =>
        if env.threadPoolMaxCount ≤ 1 then ⟨.INVALID_OPERATION, b, 0⟩
        else
          let (e, b1) := b.getOrCreateExtras
          let link : RpcServerLink := ⟨e.mRpcServerLinks.length, keepAlive⟩
          if keepAlive.linkToDeathStatus ≠ .OK then
            ⟨keepAlive.linkToDeathStatus, b1, 1⟩
          else if env.setupExternalServerStatus ≠ .OK then
            ⟨env.setupExternalServerStatus, b1, 1⟩
          else
            ⟨.OK,
             { b1 with mExtras := some { e with mRpcServerLinks := link :: e.mRpcServerLinks } },
             1⟩

/-- `BBinder::setRpcClientDebug(const Parcel&)`: flag checks, root-uid
check, then parses `(hasSocketFd, clientFd?, keepAliveBinder)` from `data`
and delegates to the descriptor overload. -/
def BBinder.setRpcClientDebugParcel (env : Env) (b : BBinder) (data : Parcel) :
    RpcSetupResult :=
  if !env.flags.kEnableRpcDevServers then ⟨.INVALID_OPERATION, b, 0⟩
  else if !env.flags.kEnableKernelIpc then ⟨.INVALID_OPERATION, b, 0⟩
  else if env.callingUid ≠ kUidRoot then ⟨.PERMISSION_DENIED, b, 0⟩
  else
    match data.readBoolResult with
    | .error s => ⟨s, b, 0⟩
    | .ok hasSocketFd =>
        match (if hasSocketFd then data.readFdResult else .ok (-1)) with
        | .error s => ⟨s, b, 0⟩
        | .ok clientFd =>
            match data.readBinderResult with
            | .error s => ⟨s, b, 0⟩
            | .ok keepAliveBinder =>
                BBinder.setRpcClientDebugFd env b clientFd keepAliveBinder

/-- `BBinder::removeRpcServerLink`. -/
def BBinder.removeRpcServerLink (b : BBinder) (link : RpcServerLink) : BBinder :=
  match b.mExtras with
  | none => b
  | some e =>
      let e1 := { e with mRpcServerLinks := e.mRpcServerLinks.filter (· ≠ link) }
      { b with mExtras := some e1 }

/-- `BBinder::onTransact` — default handler for the interface-descriptor,
dump, shell-command and sysprop-change opcodes; anything else is
`UNKNOWN_TRANSACTION`.  (The shell-command branch reads and discards its
descriptors and arguments and notifies the result receiver out of band.) -/
def BBinder.onTransact (env : Env) (b : BBinder) (code : Nat) (data : Parcel)
    (reply : Option Parcel) (_flags : Nat) : Outcome (status_t × Option Parcel) :=
  if code = INTERFACE_TRANSACTION then
    match reply with
    | none => .fatal .nullReply
    | some r => .ok (NO_ERROR, some (r.writeString16 b.getInterfaceDescriptor))
  else if code = DUMP_TRANSACTION then
    let fd := match data.readFdResult with | .ok f => f | .error _ => -1
    let argc := match data.readInt32Result with | .ok n => n | .error _ => 0
    let args := data.readString16List.take argc.toNat
    .ok (b.dump fd args, reply)
  else if code = SHELL_COMMAND_TRANSACTION then
    .ok (NO_ERROR, reply)
  else if code = SYSPROPS_TRANSACTION then
    .ok ((if env.reportSyspropChangeOk then NO_ERROR else .INVALID_OPERATION), reply)
  else
    .ok (.UNKNOWN_TRANSACTION, reply)

/-- `BBinder::transact`: rewinds `data`, marks a sensitive reply, dispatches
builtin opcodes before delegating to `onTransact`, then rewinds the reply.
The recording append and the oversized-reply diagnostic are external
logging/file IO and change no `BBinder` state. -/
def BBinder.transact (env : Env) (b : BBinder) (code : Nat) (data : Parcel)
    (reply : Option Parcel) (flags : Nat) :
    Outcome (status_t × BBinder × Option Parcel) :=
  let data := data.setDataPosition 0
  let reply := reply.map (fun r =>
    if flags &&& FLAG_CLEAR_BUF ≠ 0 then r.markSensitive else r)
  let step : Outcome (status_t × BBinder × Option Parcel) :=
    if code = PING_TRANSACTION then .ok (b.pingBinder, b, reply)
    else if code = START_RECORDING_TRANSACTION then
      let (st, b1) := b.startRecordingTransactions env data
      .ok (st, b1, reply)
    else if code = STOP_RECORDING_TRANSACTION then
      let (st, b1) := b.stopRecordingTransactions env
      .ok (st, b1, reply)
    else if code = EXTENSION_TRANSACTION then
      match reply with
      | none => .fatal .nullReply
      | some r => .ok (.OK, b, some (r.writeStrongBinder b.getExtension))
    else if code = DEBUG_PID_TRANSACTION then
      match reply with
      | none => .fatal .nullReply
      | some r => .ok (.OK, b, some (r.writeInt32 (b.getDebugPid env)))
    else if code = SET_RPC_CLIENT_TRANSACTION then
      let res := BBinder.setRpcClientDebugParcel env b data
      .ok (res.st, res.binder, reply)
    else
      match b.onTransact env code data reply flags with
      | .fatal r => .fatal r
      | .ok (st, reply1) => .ok (st, b, reply1)
  match step with
  | .fatal r => .fatal r
  | .ok (st, b1, reply1) => .ok (st, b1, reply1.map (·.setDataPosition 0))

/-- Tally of the reference-count operations a `BpRefBase` performs on its
remote (`incStrong`/`decStrong`/`createWeak`/`decWeak`). -/
structure RefCounter where
  strongIncs : Nat := 0
  strongDecs : Nat := 0
  weakIncs : Nat := 0
  weakDecs : Nat := 0
deriving DecidableEq, Repr

/-- The `kRemoteAcquired` bit of `BpRefBase::mState`. -/
def kRemoteAcquired : Nat := 1

/-- `BpRefBase` state: whether `mRemote` is non-null, and the `mState`
bitmask. -/
structure BpRefBase where
  hasRemote : Bool
  mState : Nat
deriving DecidableEq, Repr

/-- `BpRefBase::BpRefBase(o)` — with a non-null remote, `incStrong` (removed
on first `incStrong` of the proxy) and `createWeak` (held for the proxy's
entire lifetime). -/
def BpRefBase.construct (hasRemote : Bool) : BpRefBase × RefCounter :=
  if hasRemote then (⟨true, 0⟩, { strongIncs := 1, weakIncs := 1 })
  else (⟨false, 0⟩, {})

/-- `BpRefBase::onFirstRef` — records that the proxy has taken over the
remote's strong reference. -/
def BpRefBase.onFirstRef (p : BpRefBase) (c : RefCounter) : BpRefBase × RefCounter :=
  ({ p with mState := p.mState ||| kRemoteAcquired }, c)

/-- `BpRefBase::onLastStrongRef` — releases the remote's strong reference
unconditionally (when there is a remote). -/
def BpRefBase.onLastStrongRef (p : BpRefBase) (c : RefCounter) :
    BpRefBase × RefCounter :=
  if p.hasRemote then (p, { c with strongDecs := c.strongDecs + 1 }) else (p, c)

/-- `BpRefBase::~BpRefBase` — releases the strong reference only when
`kRemoteAcquired` was never set, then always releases the weak reference. -/
def BpRefBase.destruct (p : BpRefBase) (c : RefCounter) : RefCounter :=
  if p.hasRemote then
    let c1 :=
      if p.mState &&& kRemoteAcquired = 0 then { c with strongDecs := c.strongDecs + 1 }
      else c
    { c1 with weakDecs := c1.weakDecs + 1 }
  else c

/-- The two lifecycles the `RefBase` runtime (external collaborator) can
drive a proxy through: destroyed without ever being strongly acquired, or
strongly acquired (`onFirstRef`) and later fully released
(`onLastStrongRef`) before destruction. -/
inductive ProxyLife where
  | neverAcquired
  | acquiredThenReleased
deriving DecidableEq, Repr

/-- Runs a whole proxy lifecycle and returns the tally of reference-count
operations performed on the remote. -/
def runProxyLife (hasRemote : Bool) : ProxyLife → RefCounter
  | .neverAcquired =>
      let (p, c) := BpRefBase.construct hasRemote
      p.destruct c
  | .acquiredThenReleased =>
      let (p0, c0) := BpRefBase.construct hasRemote
      let (p1, c1) := p0.onFirstRef c0
      let (p2, c2) := p1.onLastStrongRef c1
      p2.destruct c2

/-- Modelled from the spec: `BpBinder`, the concrete remote-proxy class, is
not among the analyzed sources (only `BpBinder.h` is referenced); per the
spec each concrete role overrides exactly one of the role accessors, and the
remote proxy's `remoteBinder` returns itself while its `localBinder` keeps
the `IBinder` default of null. -/
structure BpBinder where
  handle : Nat
deriving DecidableEq, Repr

/-- A concrete capability instance: either a local `BBinder` or a remote
`BpBinder` proxy. -/
inductive ConcreteBinder where
  | loc (b : BBinder)
  | rem (p : BpBinder)
deriving DecidableEq, Repr

/-- `localBinder()` on a concrete instance: `BBinder::localBinder` returns
`this`; `BpBinder` inherits the `IBinder` default returning null. -/
def ConcreteBinder.localBinder : ConcreteBinder → Option BBinder
  | .loc b => b.localBinder
  | .rem _ => none

/-- `remoteBinder()` on a concrete instance: `BBinder` inherits the
`IBinder` default returning null; `BpBinder::remoteBinder` returns `this`
(modelled from the spec, see `BpBinder`). -/
def ConcreteBinder.remoteBinder : ConcreteBinder → Option BpBinder
  | .loc _ => none
  | .rem p => some p

/-- Valid argument pairs for `setMinSchedulerPolicy` (the complement of its
fatal priority-range and unknown-policy checks). -/
def validSchedulerArgs (policy priority : Int) : Prop :=
  (policy = SCHED_NORMAL ∧ -20 ≤ priority ∧ priority ≤ 19) ∨
  ((policy = SCHED_RR ∨ policy = SCHED_FIFO) ∧ 1 ≤ priority ∧ priority ≤ 99)

instance (policy priority : Int) : Decidable (validSchedulerArgs policy priority) := by
  unfold validSchedulerArgs; infer_instance

/-- The ten builtin framework opcodes handled by `BBinder::transact` and the
default `BBinder::onTransact`. -/
def builtinTransactionCodes : List Nat :=
  [PING_TRANSACTION, START_RECORDING_TRANSACTION, STOP_RECORDING_TRANSACTION,
   EXTENSION_TRANSACTION, DEBUG_PID_TRANSACTION, SET_RPC_CLIENT_TRANSACTION,
   INTERFACE_TRANSACTION, DUMP_TRANSACTION, SHELL_COMMAND_TRANSACTION,
   SYSPROPS_TRANSACTION]

/-- The RPC-server links recorded for a `BBinder` (empty while no Extras are
allocated). -/
def BBinder.rpcServerLinksOf (b : BBinder) : List RpcServerLink :=
  match b.mExtras with
  | none => []
  | some e => e.mRpcServerLinks

/-- A configuration with every feature flag enabled, a root caller and a
multithreaded pool, used to instantiate theorems at concrete inputs. -/
def envRootDebug : Env :=
  { flags := ⟨true, true, true⟩, callingUid := 0, threadPoolMaxCount := 4 }

/-- C10: for every `BBinder` in every state (fresh, parceled, recording, or
RPC-bridged), `isBinderAlive()` returns `true`. -/
theorem C10_isBinderAlive_always_true : ∀ b : BBinder, b.isBinderAlive = true :=
  fun _ => rfl

/-- C9: for every concrete capability instance, exactly one of
`localBinder()` and `remoteBinder()` returns non-null; in particular, for a
`BBinder`, `localBinder()` returns the object itself and `remoteBinder()`
returns null. -/
theorem C9_role_exclusivity :
    (∀ c : ConcreteBinder, c.localBinder.isSome = !c.remoteBinder.isSome) ∧
    (∀ b : BBinder,
       (ConcreteBinder.loc b).localBinder = some b ∧
       (ConcreteBinder.loc b).remoteBinder = none) := by
  refine ⟨fun c => ?_, fun b => ⟨rfl, rfl⟩⟩
  cases c <;> rfl

/-- C2: for a `BpRefBase` constructed around a non-null remote, any complete
lifecycle decrements the remote's strong count exactly once and its weak
count exactly once; `onLastStrongRef` releases the strong reference
unconditionally, the destructor releases it only when `kRemoteAcquired` was
never set, and the destructor always releases the weak reference. -/
theorem C2_bprefbase_single_release :
    (∀ t : ProxyLife,
       (runProxyLife true t).strongDecs = 1 ∧ (runProxyLife true t).weakDecs = 1 ∧
       (runProxyLife true t).strongIncs = 1 ∧ (runProxyLife true t).weakIncs = 1) ∧
    (∀ (p : BpRefBase) (c : RefCounter), p.hasRemote = true →
       (p.onLastStrongRef c).2.strongDecs = c.strongDecs + 1 ∧
       (p.destruct c).weakDecs = c.weakDecs + 1 ∧
       (p.destruct c).strongDecs =
         (if p.mState &&& kRemoteAcquired = 0 then c.strongDecs + 1 else c.strongDecs)) := by
  constructor
  · intro t; cases t <;> exact ⟨rfl, rfl, rfl, rfl⟩
  · intro p c hp
    refine ⟨?_, ?_, ?_⟩ <;>
      simp only [BpRefBase.onLastStrongRef, BpRefBase.destruct, hp, if_true] <;>
      split <;> rfl

/-- C2 witness: the never-strongly-acquired lifecycle at a concrete input,
plus `onLastStrongRef` on a concrete proxy state. -/
theorem C2_bprefbase_single_release_witness :
    (runProxyLife true ProxyLife.neverAcquired).strongDecs = 1 ∧
    (BpRefBase.onLastStrongRef ⟨true, 0⟩ {}).2.strongDecs = 0 + 1 :=
  ⟨(C2_bprefbase_single_release.1 ProxyLife.neverAcquired).1,
   (C2_bprefbase_single_release.2 ⟨true, 0⟩ {} rfl).1⟩

/-- C1: on a fresh `BBinder`, `transact(PING_TRANSACTION, emptyData,
nullptr, 0)` returns `OK`, and `transact` with any code outside the builtin
framework opcodes (with the default `onTransact`) returns
`UNKNOWN_TRANSACTION`. -/
theorem C1_transact_dispatch (env : Env) (code : Nat) (reply : Parcel)
    (h : code ∉ builtinTransactionCodes) :
    BBinder.transact env freshBBinder PING_TRANSACTION {} none 0 =
      .ok (.OK, freshBBinder, none) ∧
    BBinder.transact env freshBBinder code {} (some reply) 0 =
      .ok (.UNKNOWN_TRANSACTION, freshBBinder, some (reply.setDataPosition 0)) := by
  constructor
  · rfl
  · simp only [builtinTransactionCodes, List.mem_cons, List.not_mem_nil, or_false,
      not_or] at h
    obtain ⟨h1, h2, h3, h4, h5, h6, h7, h8, h9, h10⟩ := h
    simp [BBinder.transact, BBinder.onTransact, h1, h2, h3, h4, h5, h6, h7, h8, h9, h10,
      Parcel.setDataPosition, FLAG_CLEAR_BUF]

/-- C1 witness: code 1 (`FIRST_CALL_TRANSACTION`) is not a builtin opcode
and yields `UNKNOWN_TRANSACTION`. -/
theorem C1_transact_dispatch_witness :
    BBinder.transact envRootDebug freshBBinder PING_TRANSACTION {} none 0 =
      .ok (.OK, freshBBinder, none) ∧
    BBinder.transact envRootDebug freshBBinder 1 {} (some {}) 0 =
      .ok (.UNKNOWN_TRANSACTION, freshBBinder, some (Parcel.setDataPosition {} 0)) :=
  C1_transact_dispatch envRootDebug 1 {} (by decide)

/-- C3: with RPC-debug and kernel-IPC support enabled,
`setRpcClientDebug(socketFd, keepAliveBinder)` returns `BAD_VALUE` on an
invalid socket descriptor before any RPC server is allocated, returns
`UNEXPECTED_NULL` on a null keep-alive capability, and returns
`INVALID_OPERATION` when the thread-pool max total thread count is at
most 1. -/
theorem C3_rpc_debug_preconditions (env : Env) (b : BBinder) (socketFd : Int)
    (keep : RemoteCap)
    (hrpc : env.flags.kEnableRpcDevServers = true)
    (hipc : env.flags.kEnableKernelIpc = true) :
    (unique_fd.ok socketFd = false →
       ∀ ka : Option RemoteCap,
         BBinder.setRpcClientDebugFd env b socketFd ka = ⟨.BAD_VALUE, b, 0⟩) ∧
    (unique_fd.ok socketFd = true →
       BBinder.setRpcClientDebugFd env b socketFd none = ⟨.UNEXPECTED_NULL, b, 0⟩) ∧
    (unique_fd.ok socketFd = true → env.threadPoolMaxCount ≤ 1 →
       BBinder.setRpcClientDebugFd env b socketFd (some keep) =
         ⟨.INVALID_OPERATION, b, 0⟩) := by
  refine ⟨fun hfd ka => ?_, fun hfd => ?_, fun hfd htp => ?_⟩
  · simp [BBinder.setRpcClientDebugFd, hrpc, hipc, hfd]
  · simp [BBinder.setRpcClientDebugFd, hrpc, hipc, hfd]
  · simp [BBinder.setRpcClientDebugFd, hrpc, hipc, hfd, htp]

/-- C3 witness: the three precondition failures at concrete inputs. -/
theorem C3_rpc_debug_preconditions_witness :
    BBinder.setRpcClientDebugFd envRootDebug freshBBinder (-1) (some {}) =
      ⟨.BAD_VALUE, freshBBinder, 0⟩ ∧
    BBinder.setRpcClientDebugFd envRootDebug freshBBinder 3 none =
      ⟨.UNEXPECTED_NULL, freshBBinder, 0⟩ ∧
    BBinder.setRpcClientDebugFd { envRootDebug with threadPoolMaxCount := 1 }
        freshBBinder 3 (some {}) =
      ⟨.INVALID_OPERATION, freshBBinder, 0⟩ :=
  ⟨(C3_rpc_debug_preconditions envRootDebug freshBBinder (-1) {} rfl rfl).1 (by decide)
      (some {}),
   (C3_rpc_debug_preconditions envRootDebug freshBBinder 3 {} rfl rfl).2.1 (by decide),
   (C3_rpc_debug_preconditions { envRootDebug with threadPoolMaxCount := 1 }
      freshBBinder 3 {} rfl rfl).2.2 (by decide) (by decide)⟩

/-- C4: with all preconditions satisfied, the `RpcServerLink` is inserted
into the Extras link set only after `linkToDeath` and
`setupExternalServer` have both succeeded: either failure propagates its
status and leaves the link set unchanged, and success prepends exactly the
new link. -/
theorem C4_link_registered_only_on_success (env : Env) (b : BBinder)
    (socketFd : Int) (keep : RemoteCap)
    (hrpc : env.flags.kEnableRpcDevServers = true)
    (hipc : env.flags.kEnableKernelIpc = true)
    (hfd : unique_fd.ok socketFd = true)
    (htp : ¬ env.threadPoolMaxCount ≤ 1) :
    (keep.linkToDeathStatus ≠ .OK →
       (BBinder.setRpcClientDebugFd env b socketFd (some keep)).st =
         keep.linkToDeathStatus ∧
       (BBinder.setRpcClientDebugFd env b socketFd (some keep)).binder.rpcServerLinksOf =
         b.rpcServerLinksOf) ∧
    (keep.linkToDeathStatus = .OK → env.setupExternalServerStatus ≠ .OK →
       (BBinder.setRpcClientDebugFd env b socketFd (some keep)).st =
         env.setupExternalServerStatus ∧
       (BBinder.setRpcClientDebugFd env b socketFd (some keep)).binder.rpcServerLinksOf =
         b.rpcServerLinksOf) ∧
    (keep.linkToDeathStatus = .OK → env.setupExternalServerStatus = .OK →
       (BBinder.setRpcClientDebugFd env b socketFd (some keep)).st = .OK ∧
       (BBinder.setRpcClientDebugFd env b socketFd (some keep)).binder.rpcServerLinksOf =
         ⟨b.rpcServerLinksOf.length, keep⟩ :: b.rpcServerLinksOf) := by
  refine ⟨fun hld => ?_, fun hld hsetup => ?_, fun hld hsetup => ?_⟩
  · cases hbe : b.mExtras <;>
      simp [BBinder.setRpcClientDebugFd, BBinder.getOrCreateExtras,
        BBinder.rpcServerLinksOf, hrpc, hipc, hfd, htp, hld, hbe]
  · cases hbe : b.mExtras <;>
      simp [BBinder.setRpcClientDebugFd, BBinder.getOrCreateExtras,
        BBinder.rpcServerLinksOf, hrpc, hipc, hfd, htp, hld, hsetup, hbe]
  · cases hbe : b.mExtras <;>
      simp [BBinder.setRpcClientDebugFd, BBinder.getOrCreateExtras,
        BBinder.rpcServerLinksOf, hrpc, hipc, hfd, htp, hld, hsetup, hbe]

/-- C4 witness: a failing `linkToDeath` propagates `DEAD_OBJECT` and leaves
the link set empty; full success registers one link. -/
theorem C4_link_registered_only_on_success_witness :
    (BBinder.setRpcClientDebugFd envRootDebug freshBBinder 3
        (some { linkToDeathStatus := .DEAD_OBJECT })).st = .DEAD_OBJECT ∧
    (BBinder.setRpcClientDebugFd envRootDebug freshBBinder 3
        (some { linkToDeathStatus := .DEAD_OBJECT })).binder.rpcServerLinksOf =
      freshBBinder.rpcServerLinksOf ∧
    (BBinder.setRpcClientDebugFd envRootDebug freshBBinder 3
        (some {})).binder.rpcServerLinksOf =
      RpcServerLink.mk freshBBinder.rpcServerLinksOf.length {} ::
        freshBBinder.rpcServerLinksOf :=
  ⟨((C4_link_registered_only_on_success envRootDebug freshBBinder 3
      { linkToDeathStatus := .DEAD_OBJECT } rfl rfl (by decide) (by decide)).1
      (by decide)).1,
   ((C4_link_registered_only_on_success envRootDebug freshBBinder 3
      { linkToDeathStatus := .DEAD_OBJECT } rfl rfl (by decide) (by decide)).1
      (by decide)).2,
   ((C4_link_registered_only_on_success envRootDebug freshBBinder 3 {} rfl rfl
      (by decide) (by decide)).2.2 rfl rfl).2⟩

/-- C5: with the features compiled in, a non-root caller is denied
`startRecordingTransactions`, `stopRecordingTransactions`, and the
parcel-driven `setRpcClientDebug` with `PERMISSION_DENIED`, and a denied
start leaves the recording-on state false. -/
theorem C5_nonroot_permission_denied (env : Env) (b : BBinder) (data : Parcel)
    (hrec : env.flags.kEnableRecording = true)
    (hipc : env.flags.kEnableKernelIpc = true)
    (hrpc : env.flags.kEnableRpcDevServers = true)
    (huid : env.callingUid ≠ kUidRoot) :
    BBinder.startRecordingTransactions env b data = (.PERMISSION_DENIED, b) ∧
    BBinder.stopRecordingTransactions env b = (.PERMISSION_DENIED, b) ∧
    BBinder.setRpcClientDebugParcel env b data = ⟨.PERMISSION_DENIED, b, 0⟩ ∧
    (b.mRecordingOn = false →
       (BBinder.startRecordingTransactions env b data).2.mRecordingOn = false) := by
  refine ⟨?_, ?_, ?_, ?_⟩ <;>
    simp [BBinder.startRecordingTransactions, BBinder.stopRecordingTransactions,
      BBinder.setRpcClientDebugParcel, hrec, hipc, hrpc, huid]

/-- C5 witness: a caller with uid 1000 is denied everywhere. -/
theorem C5_nonroot_permission_denied_witness :
    BBinder.startRecordingTransactions { envRootDebug with callingUid := 1000 }
        freshBBinder {} = (.PERMISSION_DENIED, freshBBinder) ∧
    BBinder.stopRecordingTransactions { envRootDebug with callingUid := 1000 }
        freshBBinder = (.PERMISSION_DENIED, freshBBinder) ∧
    BBinder.setRpcClientDebugParcel { envRootDebug with callingUid := 1000 }
        freshBBinder {} = ⟨.PERMISSION_DENIED, freshBBinder, 0⟩ :=
  ⟨(C5_nonroot_permission_denied { envRootDebug with callingUid := 1000 }
      freshBBinder {} rfl rfl rfl (by decide)).1,
   (C5_nonroot_permission_denied { envRootDebug with callingUid := 1000 }
      freshBBinder {} rfl rfl rfl (by decide)).2.1,
   (C5_nonroot_permission_denied { envRootDebug with callingUid := 1000 }
      freshBBinder {} rfl rfl rfl (by decide)).2.2.1⟩

/-- C6: once `setParceled()` has been called, `setRequestingSid`,
`setInheritRt`, `setMinSchedulerPolicy` and `setExtension` all hit the
fatal parceled-mutation check, and on a never-parceled object that abort
branch is unreachable. -/
theorem C6_parceled_immutability (b : BBinder) (rs ir : Bool) (pol pri : Int)
    (ext : Option RemoteCap) :
    (BBinder.setRequestingSid b.setParceled rs = .fatal .parceledMutation ∧
     BBinder.setInheritRt b.setParceled ir = .fatal .parceledMutation ∧
     BBinder.setMinSchedulerPolicy b.setParceled pol pri = .fatal .parceledMutation ∧
     BBinder.setExtension b.setParceled ext = .fatal .parceledMutation) ∧
    (b.mParceled = false →
     BBinder.setRequestingSid b rs ≠ .fatal .parceledMutation ∧
     BBinder.setInheritRt b ir ≠ .fatal .parceledMutation ∧
     BBinder.setMinSchedulerPolicy b pol pri ≠ .fatal .parceledMutation ∧
     BBinder.setExtension b ext ≠ .fatal .parceledMutation) := by
  constructor
  · exact ⟨rfl, rfl, rfl, rfl⟩
  · intro hp
    refine ⟨?_, ?_, ?_, ?_⟩ <;>
    · simp only [BBinder.setRequestingSid, BBinder.setInheritRt,
        BBinder.setMinSchedulerPolicy, BBinder.setMinSchedulerPolicyStore,
        BBinder.setExtension, BBinder.getOrCreateExtras, hp]
      repeat' split
      all_goals simp_all

/-- C6 witness: a parceled fresh object aborts on `setRequestingSid(true)`;
a never-parceled one does not. -/
theorem C6_parceled_immutability_witness :
    BBinder.setRequestingSid (BBinder.setParceled freshBBinder) true =
      .fatal .parceledMutation ∧
    BBinder.setRequestingSid freshBBinder true ≠ .fatal .parceledMutation :=
  ⟨(C6_parceled_immutability freshBBinder true true 0 0 none).1.1,
   ((C6_parceled_immutability freshBBinder true true 0 0 none).2 rfl).1⟩

/-- C7: as root with the features compiled in, a first
`startRecordingTransactions` with a readable descriptor returns `OK` and
turns recording on, an immediate second one returns `INVALID_OPERATION`
without changing any state, and `stopRecordingTransactions` while not
recording returns `INVALID_OPERATION`. -/
theorem C7_recording_idempotence (env : Env) (b : BBinder) (data : Parcel) (fd : Int)
    (hrec : env.flags.kEnableRecording = true)
    (hipc : env.flags.kEnableKernelIpc = true)
    (huid : env.callingUid = kUidRoot) (hoff : b.mRecordingOn = false)
    (hread : data.readFdResult = Except.ok fd) :
    (BBinder.startRecordingTransactions env b data).1 = NO_ERROR ∧
    (BBinder.startRecordingTransactions env b data).2.mRecordingOn = true ∧
    BBinder.startRecordingTransactions env
        (BBinder.startRecordingTransactions env b data).2 data =
      (.INVALID_OPERATION, (BBinder.startRecordingTransactions env b data).2) ∧
    (BBinder.stopRecordingTransactions env b).1 = .INVALID_OPERATION := by
  cases hbe : b.mExtras <;>
    simp [BBinder.startRecordingTransactions, BBinder.stopRecordingTransactions,
      BBinder.getOrCreateExtras, NO_ERROR, hrec, hipc, huid, hoff, hread, hbe]

/-- C7 witness: the start-start-stop sequence at concrete inputs. -/
theorem C7_recording_idempotence_witness :
    (BBinder.startRecordingTransactions envRootDebug freshBBinder
        { readFdResult := Except.ok 5 }).1 = NO_ERROR ∧
    BBinder.startRecordingTransactions envRootDebug
        (BBinder.startRecordingTransactions envRootDebug freshBBinder
          { readFdResult := Except.ok 5 }).2 { readFdResult := Except.ok 5 } =
      (.INVALID_OPERATION,
       (BBinder.startRecordingTransactions envRootDebug freshBBinder
         { readFdResult := Except.ok 5 }).2) ∧
    (BBinder.stopRecordingTransactions envRootDebug freshBBinder).1 =
      .INVALID_OPERATION :=
  ⟨(C7_recording_idempotence envRootDebug freshBBinder { readFdResult := Except.ok 5 }
      5 rfl rfl rfl rfl rfl).1,
   (C7_recording_idempotence envRootDebug freshBBinder { readFdResult := Except.ok 5 }
      5 rfl rfl rfl rfl rfl).2.2.1,
   (C7_recording_idempotence envRootDebug freshBBinder { readFdResult := Except.ok 5 }
      5 rfl rfl rfl rfl rfl).2.2.2⟩

/-- C8: on a fresh never-parceled object, setting the scheduler policy,
SID-request flag or inherit-realtime flag to its default leaves the Extras
pointer null and changes nothing, while any valid non-default value
allocates Extras and records the value. -/
theorem C8_default_no_allocation (b : BBinder) (pol pri : Int)
    (hfresh : b.mExtras = none) (hp : b.mParceled = false)
    (hvalid : validSchedulerArgs pol pri)
    (hnd : ¬(pol = SCHED_NORMAL ∧ pri = 0)) :
    BBinder.setMinSchedulerPolicy b SCHED_NORMAL 0 = .ok b ∧
    BBinder.setRequestingSid b false = .ok b ∧
    BBinder.setInheritRt b false = .ok b ∧
    BBinder.setRequestingSid b true =
      .ok { b with mExtras := some { mRequestingSid := true } } ∧
    BBinder.setInheritRt b true =
      .ok { b with mExtras := some { mInheritRt := true } } ∧
    BBinder.setMinSchedulerPolicy b pol pri =
      .ok { b with mExtras := some { mPolicy := pol, mPriority := pri } } := by
  refine ⟨?_, ?_, ?_, ?_, ?_, ?_⟩
  · norm_num [BBinder.setMinSchedulerPolicy, BBinder.setMinSchedulerPolicyStore,
      BBinder.getOrCreateExtras, SCHED_NORMAL, hp, hfresh]
  · simp [BBinder.setRequestingSid, hp, hfresh]
  · simp [BBinder.setInheritRt, hp, hfresh]
  · simp [BBinder.setRequestingSid, BBinder.getOrCreateExtras, hp, hfresh]
  · simp [BBinder.setInheritRt, BBinder.getOrCreateExtras, hp, hfresh]
  · rcases hvalid with ⟨h0, hlo, hhi⟩ | ⟨h01, hlo, hhi⟩
    · have hpri : pri ≠ 0 := fun hh => hnd ⟨h0, hh⟩
      have hrange : ¬(pri < -20 ∨ pri > 19) := by omega
      simp [BBinder.setMinSchedulerPolicy, BBinder.setMinSchedulerPolicyStore,
        BBinder.getOrCreateExtras, hp, hfresh, h0, hrange, hpri]
    · have hrange : ¬(pri < 1 ∨ pri > 99) := by omega
      rcases h01 with h1 | h1 <;>
      · subst h1
        simp [BBinder.setMinSchedulerPolicy, BBinder.setMinSchedulerPolicyStore,
          BBinder.getOrCreateExtras, SCHED_NORMAL, SCHED_RR, SCHED_FIFO, hp, hfresh,
          hrange]

/-- C8 witness: defaults allocate nothing; `SCHED_FIFO`/50 allocates and
records. -/
theorem C8_default_no_allocation_witness :
    BBinder.setMinSchedulerPolicy freshBBinder SCHED_NORMAL 0 = .ok freshBBinder ∧
    BBinder.setRequestingSid freshBBinder false = .ok freshBBinder ∧
    BBinder.setInheritRt freshBBinder false = .ok freshBBinder ∧
    BBinder.setMinSchedulerPolicy freshBBinder SCHED_FIFO 50 =
      .ok { freshBBinder with
              mExtras := some { mPolicy := SCHED_FIFO, mPriority := 50 } } :=
  ⟨(C8_default_no_allocation freshBBinder SCHED_FIFO 50 rfl rfl
      (by right; exact ⟨Or.inr rfl, by norm_num, by norm_num⟩) (by decide)).1,
   (C8_default_no_allocation freshBBinder SCHED_FIFO 50 rfl rfl
      (by right; exact ⟨Or.inr rfl, by norm_num, by norm_num⟩) (by decide)).2.1,
   (C8_default_no_allocation freshBBinder SCHED_FIFO 50 rfl rfl
      (by right; exact ⟨Or.inr rfl, by norm_num, by norm_num⟩) (by decide)).2.2.1,
   (C8_default_no_allocation freshBBinder SCHED_FIFO 50 rfl rfl
      (by right; exact ⟨Or.inr rfl, by norm_num, by norm_num⟩) (by decide)).2.2.2.2.2⟩

end Binder
